import Mathlib

/-!
Verification of the interactive-dashboard state-update flow of
`src/tasks/dvc_ex4_23756554.py` (the "View State Controller" of the spec).

Embedding conventions:
* Pandas dataframes become `List`s of structures; a cell that the script sets
  to `np.nan` (or that is missing in the source data) is an `Option` that is
  `none`.  Pandas aggregation semantics are reproduced: `sum` skips `none`
  (an all-`none` group sums to `0`), `count` counts the non-`none` entries,
  and a comparison `none < v` is `False` (so `nan` rows are never masked).
* Float arithmetic is modelled by exact rational arithmetic (ℚ).
  `round(np.log10(q + 0.0002), 2)` is modelled by `round100log10`, which
  returns `round(100 * log10 q)` as an integer (the value of the `col`
  column times 100); `int(round(np.log10 q))` is modelled by `roundLog10`.
  For a rational argument `100 * log10 q` is never an exact half-integer
  (that would force `q ^ 200` to be an odd power of 10, impossible for a
  rational `q`), so the rounding mode is irrelevant and the functions below
  are characterised exactly by `10 ^ (2R - 1) ≤ q ^ (2s) < 10 ^ (2R + 1)`.
* The 8-colour palette `Sunset[8]` lives in the external bokeh library; we
  model its entries by their positions `0, …, 7`.  A Python list access
  `Sunset[8][i]` becomes `pyIndex sunset8 i`, which is `none` exactly when
  the access would raise `IndexError` (Python's negative-index wrap-around
  is reproduced, although the script clamps the index to be nonnegative).
* The module-level mutable globals (`year`, `city`, `market_cap_lower`,
  `callback`, the two data sources, the year label, the subplot title and
  the button label) become the fields of `AppState`.  The module-level
  dataframe `main_df` built at load time is never reassigned by any
  callback (the callbacks create local variables of the same name), so it
  is carried as the immutable field `main_df_global`; `tap_update` reads it,
  exactly as the script does.
* Exceptions are not modelled as control flow: an operation that would
  raise before mutating anything (empty tap selection, out-of-range tap
  index) leaves the state unchanged, and a palette access that would raise
  is recorded as a `none` colour value.
-/

set_option exponentiation.threshold 4000

/-! ## Exact base-10 logarithm helpers (model of `np.log10` + rounding) -/

/-- Fuel-driven floor of `log10 n` for naturals: `natDigits10 f n` is
`⌊log10 n⌋` whenever `1 ≤ n ≤ f` (the fuel only drives termination). -/
def natDigits10 : ℕ → ℕ → ℕ
  | 0, _ => 0
  | f+1, n => if n < 10 then 0 else natDigits10 f (n / 10) + 1

/-- Floor of `log10 n` for a natural `n ≥ 1`. -/
def natLog10 (n : ℕ) : ℕ := natDigits10 n n

/-- Fuel-driven ceiling of `log10 n` for naturals. -/
def natClog10fuel : ℕ → ℕ → ℕ
  | 0, _ => 0
  | f+1, n => if n ≤ 1 then 0 else natClog10fuel f ((n + 9) / 10) + 1

/-- Ceiling of `log10 n` for a natural `n ≥ 1`: the least `k` with `n ≤ 10 ^ k`. -/
def natClog10 (n : ℕ) : ℕ := natClog10fuel n n

/-- Floor of `log10 (a / b)` for positive naturals `a`, `b`. -/
def pairFloorLog10 (a b : ℕ) : ℤ :=
  if b ≤ a then (natLog10 (a / b) : ℤ)
  else -(natClog10 ((b + a - 1) / a) : ℤ)

/-- Floor of `log10 q` for a positive rational `q`. -/
def qFloorLog10 (q : ℚ) : ℤ := pairFloorLog10 q.num.toNat q.den

/-- Nearest integer to `s * log10 q` for a positive rational `q` (ties cannot
occur for rational `q`).  Computed from `⌊log10 (q ^ (2s))⌋`: if that floor
`M` is even the answer is `M / 2`, otherwise `(M + 1) / 2`. -/
def roundScaledLog10 (s : ℕ) (q : ℚ) : ℤ :=
  let M := pairFloorLog10 (q.num.toNat ^ (2 * s)) (q.den ^ (2 * s))
  (if M % 2 = 0 then M else M + 1) / 2

/-- Model of `round(np.log10 q, 2)`, scaled by 100 to stay integral: the
value of the `col` column of the aggregated frame, times 100. -/
def round100log10 (q : ℚ) : ℤ := roundScaledLog10 100 q

/-- Model of `int(round(np.log10 q))` (the subplot colour exponent). -/
def roundLog10 (q : ℚ) : ℤ := roundScaledLog10 1 q

/-! ## Palette (model of bokeh's `Sunset[8]`) -/

/-- The eight entries of the `Sunset[8]` palette, modelled by their
positions; the concrete hex strings live in the external bokeh library. -/
def sunset8 : List ℕ := [0, 1, 2, 3, 4, 5, 6, 7]

/-- Python list subscription `l[i]` for an integer index: `none` models an
`IndexError`, a negative index in `[-len l, -1]` wraps around. -/
def pyIndex {α : Type} (l : List α) (i : ℤ) : Option α :=
  if 0 ≤ i then l[i.toNat]?
  else if (-i).toNat ≤ l.length then l[l.length - (-i).toNat]? else none

/-! ## Data model (model of `us_company_map` and the frames of `create_df`) -/

/-- One row of the source table `us_company_map`: entity key, location key,
web-Mercator coordinates, and the per-year metric columns
`Market Cap <year>` / `Employees <year>` (a `none` cell is a `nan` in the
loaded CSV). -/
structure SourceRow where
  symbol : String
  city : String
  x : ℚ
  y : ℚ
  mc : ℤ → Option ℚ
  emp : ℤ → Option ℚ

/-- One row of the working frame `df0` of `create_df` after the column
projection/renaming for the chosen year. -/
structure WRow where
  symbol : Option String
  city : String
  x : ℚ
  y : ℚ
  mc : Option ℚ
  emp : Option ℚ

/-- Column projection of `create_df`: take `Symbol`, `City`, `x`, `y` and the
`Market Cap`/`Employees` columns of the chosen year. -/
def project (year : ℤ) (r : SourceRow) : WRow :=
  { symbol := some r.symbol, city := r.city, x := r.x, y := r.y,
    mc := r.mc year, emp := r.emp year }

/-- The masking step of `create_df`:
`df0.loc[df0['Market Cap'] < market_cap_lower, ['Symbol', 'Market Cap', 'Employees']] = np.nan`.
A row whose `Market Cap` is `nan` compares as `False` and is left alone. -/
def maskRow (market_cap_lower : ℚ) (r : WRow) : WRow :=
  match r.mc with
  | some v =>
      if v < market_cap_lower then { r with symbol := none, mc := none, emp := none } else r
  | none => r

/-- The working frame `df0` of `create_df`: projected copy of the source
table, then the masking step.  Masking never deletes a row. -/
def make_df0 (src : List SourceRow) (year : ℤ) (market_cap_lower : ℚ) : List WRow :=
  (src.map (project year)).map (maskRow market_cap_lower)

/-- The value `np.log1p e * 3` (the `circle_size` column), modelled by its
argument `e`; `log1p` is injective, so equality of sizes is equality of
arguments, which is all the claims need. -/
structure Log1pSize where
  arg : ℚ

/-- One row of the aggregated frame (`create_df` with `main=True`): city,
summed `Market Cap` and `Employees`, averaged coordinates, count of
non-null `Symbol`s, the `col` column (times 100) and the palette entry
`c_col` (`none` records the `IndexError` an out-of-range access raises). -/
structure ARow where
  city : String
  mc : ℚ
  emp : ℚ
  x : ℚ
  y : ℚ
  count : ℕ
  col : ℤ
  c_col : Option ℕ
  circle_size : Log1pSize

/-- One row of the subplot frame (`create_df` with `main=False`). -/
structure SRow where
  symbol : Option String
  city : String
  x : ℚ
  y : ℚ
  mc : Option ℚ
  emp : Option ℚ
  c_col : Option ℕ
  circle_size : Option Log1pSize

/-- Insert a city into a sorted duplicate-free list, keeping it sorted and
duplicate-free (strings are ordered lexicographically by character, the
order pandas' `groupby(sort=True)` uses). -/
def insertD (s : String) : List String → List String
  | [] => [s]
  | h :: t => if s.data < h.data then s :: h :: t
              else if s = h then h :: t
              else h :: insertD s t

/-- The sorted list of distinct city keys: the group keys (and row order) of
`df0.groupby('City')`. -/
def sortDedupCities (l : List String) : List String := l.foldr insertD []

/-- The aggregated row `create_df` builds for one city group `g`:
`Market Cap`/`Employees` are summed with `nan` skipped, `x`/`y` averaged,
`Symbol` counted (non-null only), then
`col = round(np.log10(sum + 0.0002), 2)` and
`c_col = Sunset[8][max(0, int(col))]`. -/
def aggRow (c : String) (g : List WRow) : ARow :=
  let mcSum := (g.map (fun r => r.mc.getD 0)).sum
  let empSum := (g.map (fun r => r.emp.getD 0)).sum
  let col := round100log10 (mcSum + 1 / 5000)
  { city := c, mc := mcSum, emp := empSum,
    x := (g.map WRow.x).sum / (g.length : ℚ),
    y := (g.map WRow.y).sum / (g.length : ℚ),
    count := (g.filter (fun r => r.symbol.isSome)).length,
    col := col,
    c_col := pyIndex sunset8 (max 0 (col.tdiv 100)),
    circle_size := ⟨empSum⟩ }

/-- `create_df(year, city, market_cap_lower, main=True)`: the frame pushed to
the main plot, one row per distinct `City` of `df0`, in sorted key order. -/
def create_df_main (src : List SourceRow) (year : ℤ) (market_cap_lower : ℚ) : List ARow :=
  (sortDedupCities ((make_df0 src year market_cap_lower).map WRow.city)).map
    (fun c => aggRow c ((make_df0 src year market_cap_lower).filter (fun r => r.city = c)))

/-- `create_df(year, city, market_cap_lower, main=False)`: the rows of `df0`
whose `City` equals the selected city; all rows receive the single colour
`Sunset[8][max(0, int(round(np.log10(sum + 0.0002))))]` computed from the
group's `Market Cap` sum, and `circle_size = np.log1p(Employees) * 3`. -/
def create_df_sub (src : List SourceRow) (year : ℤ) (city : String)
    (market_cap_lower : ℚ) : List SRow :=
  let df0 := make_df0 src year market_cap_lower
  let g := df0.filter (fun r => r.city = city)
  let mcSum := (g.map (fun r => r.mc.getD 0)).sum
  let ccol := pyIndex sunset8 (max 0 (roundLog10 (mcSum + 1 / 5000)))
  g.map (fun r =>
    { symbol := r.symbol, city := r.city, x := r.x, y := r.y,
      mc := r.mc, emp := r.emp, c_col := ccol,
      circle_size := r.emp.map (fun e => ⟨e⟩) })

/-! ## The View State Controller (model of the script's globals and callbacks) -/

/-- The exact label strings of the play/pause button. -/
def playLabel : String := "► Play"

/-- Label shown while the animation runs. -/
def pauseLabel : String := "❚❚ Pause"

/-- The year label text `f'Year: {year}'`. -/
def mkYearLabel (year : ℤ) : String := "Year: " ++ toString year

/-- The subplot title `f"Companies in {city} ({year})"`. -/
def mkSubTitle (city : String) (year : ℤ) : String :=
  "Companies in " ++ city ++ " (" ++ toString year ++ ")"

/-- The mutable module-level state of the script: the view parameters, the
animation callback handle, the two chart data sources, the text sinks and
the button label.  `src` is the loaded source table (never written) and
`main_df_global` is the module-level `main_df` frame built once at load
time — the callbacks only ever create local bindings named `main_df`, so
the global is never reassigned. -/
structure AppState where
  src : List SourceRow
  year : ℤ
  city : String
  market_cap_lower : ℚ
  btnLabel : String
  callback : Option Unit
  main_df_global : List ARow
  mainData : List ARow
  subData : List SRow
  labelText : String
  subTitle : String

/-- The initial state built at module load: `year = 2022`,
`city = 'San Jose'`, `market_cap_lower = 0`, both frames computed and bound
to the plots, button showing the play label, no periodic callback.  (The
subplot title is built by `plot_company` from `sub_df['City'].iloc[0]`; an
empty initial frame would raise at load time, which is not modelled.) -/
def initState (src : List SourceRow) : AppState :=
  let md := create_df_main src 2022 0
  let sd := create_df_sub src 2022 "San Jose" 0
  { src := src, year := 2022, city := "San Jose", market_cap_lower := 0,
    btnLabel := playLabel, callback := none,
    main_df_global := md, mainData := md, subData := sd,
    labelText := mkYearLabel 2022,
    subTitle := mkSubTitle ((sd.head?.map SRow.city).getD "San Jose") 2022 }

/-- The tap callback `tap_update(attr, old, new)`: if the index list is
empty nothing happens (`if new:`); otherwise the selected city is read from
row `new[0]` of the module-level `main_df` (not from the current data
source!), the subplot frame is recomputed for it and pushed to both
renderers of the subplot (which share one data source), and the subplot
title is updated.  An out-of-range index raises in `iloc` before anything
is assigned, so the state is unchanged. -/
def tap_update (s : AppState) (new : List ℕ) : AppState :=
  match new with
  | [] => s
  | i :: _ =>
    match s.main_df_global[i]? with
    | none => s
    | some row =>
      { s with city := row.city,
               subData := create_df_sub s.src s.year row.city s.market_cap_lower,
               subTitle := mkSubTitle row.city s.year }

/-- The slider callback `slider_update(attr, old, new)`: store the new lower
bound, recompute both frames with it and push them.  The year label and the
subplot title are not touched. -/
def slider_update (s : AppState) (new : ℚ) : AppState :=
  { s with market_cap_lower := new,
           mainData := create_df_main s.src s.year new,
           subData := create_df_sub s.src s.year s.city new }

/-- The year transition inside `update_year`: `year += 1`, and if the result
exceeds 2022 it is reset to 2019. -/
def update_year_year (year : ℤ) : ℤ :=
  if year + 1 > 2022 then 2019 else year + 1

/-- The periodic callback `update_year()`: advance (and wrap) the year,
update the year label, recompute and push both frames, update the subplot
title.  Note: no check of the animation flag appears here. -/
def update_year (s : AppState) : AppState :=
  let y := update_year_year s.year
  { s with year := y,
           labelText := mkYearLabel y,
           mainData := create_df_main s.src y s.market_cap_lower,
           subData := create_df_sub s.src y s.city s.market_cap_lower,
           subTitle := mkSubTitle s.city y }

/-- The button callback `play()`: branch on the button label; showing the
play form starts the animation (registers the periodic callback and shows
the pause form), otherwise the callback is removed and cleared and the play
form restored. -/
def play (s : AppState) : AppState :=
  if s.btnLabel = playLabel then
    { s with btnLabel := pauseLabel, callback := some () }
  else
    { s with btnLabel := playLabel, callback := none }

/-- The discrete events the external runtime can deliver to the controller:
a tap selection, a slider change, a firing of the periodic callback, and a
button click. -/
inductive Op where
  | tap : List ℕ → Op
  | slider : ℚ → Op
  | tick : Op
  | button : Op

/-- Dispatch of one runtime event to the corresponding callback. -/
def applyOp (s : AppState) : Op → AppState
  | .tap new => tap_update s new
  | .slider v => slider_update s v
  | .tick => update_year s
  | .button => play s

/-- A serialized sequence of runtime events (the bokeh document runs all
callbacks on one dispatch queue). -/
def applyOps (s : AppState) (ops : List Op) : AppState := ops.foldl applyOp s

/-! ## Spec-side definition (for the refinement comparison of claim C1) -/

/-- The colour bucket as the spec words it:
`floor(log10(sum + epsilon))`, clamped below to 0 and saturating at 7. -/
def specColorBucket (mcSum : ℚ) : ℤ :=
  min 7 (max 0 (qFloorLog10 (mcSum + 1 / 5000)))

/-! ## Concrete fixtures used by witnesses and counterexamples -/

/-- Constant per-year metric columns (the fixtures use one year only). -/
def constCol (v : Option ℚ) : ℤ → Option ℚ := fun _ => v

/-- The spec's concrete scenario: `CityA` with metric-A `[10, 30]`, `CityB`
with `[5]`, in year 2020. -/
def src7 : List SourceRow :=
  [ { symbol := "A1", city := "CityA", x := 1, y := 2,
      mc := constCol (some 10), emp := constCol (some 100) },
    { symbol := "A2", city := "CityA", x := 3, y := 4,
      mc := constCol (some 30), emp := constCol (some 200) },
    { symbol := "B1", city := "CityB", x := 5, y := 6,
      mc := constCol (some 5), emp := constCol (some 50) } ]

/-- A one-row table: `CityB` with metric-A 5. -/
def src6 : List SourceRow :=
  [ { symbol := "B1", city := "CityB", x := 5, y := 6,
      mc := constCol (some 5), emp := constCol (some 50) } ]

/-- A one-row table whose metric-A sum is `10^9 - 0.0002`, so that the
epsilon-shifted sum is exactly `10^9` and `floor(log10)` is `9 > 7`. -/
def srcBig : List SourceRow :=
  [ { symbol := "G1", city := "CityG", x := 1, y := 1,
      mc := constCol (some (1000000000 - 1 / 5000)), emp := constCol (some 10) } ]

/-- The consistency invariant of the spec: both pushed tables agree with the
current view parameters. -/
def TablesInv (s : AppState) : Prop :=
  s.mainData = create_df_main s.src s.year s.market_cap_lower ∧
  s.subData = create_df_sub s.src s.year s.city s.market_cap_lower

/-- The button/timer invariant: the button shows the play form with no
callback handle, or the pause form with a handle present. -/
def BtnTimerInv (s : AppState) : Prop :=
  (s.btnLabel = playLabel ∧ s.callback = none) ∨
  (s.btnLabel = pauseLabel ∧ s.callback ≠ none)

/-- A controller state in which `CityB` is the current selection and its
one-row detail frame is on the subplot (the state reached by the spec's
scenario `setYear(2020); setMarketCapFloor(0); setSelectedLocation("CityB")`). -/
def stateB : AppState :=
  { src := src7, year := 2020, city := "CityB", market_cap_lower := 0,
    btnLabel := playLabel, callback := none,
    main_df_global := create_df_main src7 2022 0,
    mainData := create_df_main src7 2020 0,
    subData := create_df_sub src7 2020 "CityB" 0,
    labelText := mkYearLabel 2020, subTitle := mkSubTitle "CityB" 2020 }

/-! ## Characterisation of the logarithm helpers -/

theorem natDigits10_spec : ∀ (f n : ℕ), 1 ≤ n → n ≤ f →
    10 ^ natDigits10 f n ≤ n ∧ n < 10 ^ (natDigits10 f n + 1) := by
  intro f
  induction f with
  | zero => intro n h1 h2; omega
  | succ f ih =>
    intro n h1 h2
    rw [natDigits10]
    by_cases h : n < 10
    · rw [if_pos h]
      constructor
      · simpa using h1
      · simpa using h
    · rw [if_neg h]
      push_neg at h
      have hd : n / 10 < n := Nat.div_lt_self (by omega) (by norm_num)
      have h1' : 1 ≤ n / 10 := (Nat.one_le_div_iff (by norm_num)).mpr (by omega)
      have h2' : n / 10 ≤ f := by omega
      obtain ⟨ha, hb⟩ := ih (n / 10) h1' h2'
      have e1 : 10 ^ (natDigits10 f (n / 10) + 1) = 10 ^ natDigits10 f (n / 10) * 10 :=
        pow_succ 10 _
      have e2 : 10 ^ (natDigits10 f (n / 10) + 1 + 1) = 10 ^ (natDigits10 f (n / 10) + 1) * 10 :=
        pow_succ 10 _
      constructor
      · omega
      · omega

theorem natLog10_spec (n : ℕ) (h1 : 1 ≤ n) :
    10 ^ natLog10 n ≤ n ∧ n < 10 ^ (natLog10 n + 1) :=
  natDigits10_spec n n h1 le_rfl

theorem natClog10fuel_spec : ∀ (f n : ℕ), 1 ≤ n → n ≤ f →
    n ≤ 10 ^ natClog10fuel f n ∧
      (natClog10fuel f n = 0 ∨ 10 ^ (natClog10fuel f n - 1) < n) := by
  intro f
  induction f with
  | zero => intro n h1 h2; omega
  | succ f ih =>
    intro n h1 h2
    rw [natClog10fuel]
    by_cases h : n ≤ 1
    · rw [if_pos h]
      exact ⟨by simpa using h, Or.inl rfl⟩
    · rw [if_neg h]
      push_neg at h
      have hm1 : 1 ≤ (n + 9) / 10 := by omega
      have hmf : (n + 9) / 10 ≤ f := by omega
      obtain ⟨ha, hb⟩ := ih ((n + 9) / 10) hm1 hmf
      have e1 : 10 ^ (natClog10fuel f ((n + 9) / 10) + 1) =
          10 ^ natClog10fuel f ((n + 9) / 10) * 10 := pow_succ 10 _
      constructor
      · omega
      · right
        rcases hb with hb | hb
        · have e0 : natClog10fuel f ((n + 9) / 10) = 0 := hb
          rw [e0] at e1 ⊢
          simpa using h
        · have hk : 1 ≤ natClog10fuel f ((n + 9) / 10) := by
            rcases Nat.eq_zero_or_pos (natClog10fuel f ((n + 9) / 10)) with h0 | h0
            · rw [h0, pow_zero] at ha
              rw [h0] at hb
              simp only [Nat.zero_sub, pow_zero] at hb
              omega
            · exact h0
          have e2 : 10 ^ natClog10fuel f ((n + 9) / 10) =
              10 ^ (natClog10fuel f ((n + 9) / 10) - 1) * 10 := by
            conv_lhs => rw [show natClog10fuel f ((n + 9) / 10) =
              (natClog10fuel f ((n + 9) / 10) - 1) + 1 by omega]
            exact pow_succ 10 _
          simp only [Nat.add_sub_cancel]
          omega

theorem natClog10_spec (n : ℕ) (h1 : 1 ≤ n) :
    n ≤ 10 ^ natClog10 n ∧ (natClog10 n = 0 ∨ 10 ^ (natClog10 n - 1) < n) :=
  natClog10fuel_spec n n h1 le_rfl

theorem pairFloorLog10_spec (a b : ℕ) (ha : 1 ≤ a) (hb : 1 ≤ b) :
    (10:ℚ) ^ pairFloorLog10 a b * b ≤ a ∧ (a:ℚ) < 10 ^ (pairFloorLog10 a b + 1) * b := by
  by_cases hba : b ≤ a
  · have h1' : 1 ≤ a / b := (Nat.one_le_div_iff (by omega)).mpr hba
    obtain ⟨hL, hR⟩ := natLog10_spec (a / b) h1'
    have hL' : 10 ^ natLog10 (a / b) * b ≤ a := (Nat.le_div_iff_mul_le (by omega)).mp hL
    have hR' : a < 10 ^ (natLog10 (a / b) + 1) * b := by
      have := (Nat.div_lt_iff_lt_mul (k := b) (by omega)).mp hR
      omega
    rw [pairFloorLog10, if_pos hba]
    constructor
    · rw [show ((natLog10 (a / b) : ℤ)) = ((natLog10 (a / b) : ℕ) : ℤ) by norm_num,
        zpow_natCast]
      exact_mod_cast hL'
    · rw [show ((natLog10 (a / b) : ℤ) + 1) = ((natLog10 (a / b) + 1 : ℕ) : ℤ) by push_cast; ring,
        zpow_natCast]
      exact_mod_cast hR'
  · push_neg at hba
    have hc2 : 2 ≤ (b + a - 1) / a := by
      rw [Nat.le_div_iff_mul_le (by omega)]
      omega
    obtain ⟨hA, hB⟩ := natClog10_spec ((b + a - 1) / a) (by omega)
    have hk1 : 1 ≤ natClog10 ((b + a - 1) / a) := by
      rcases Nat.eq_zero_or_pos (natClog10 ((b + a - 1) / a)) with h0 | h0
      · rw [h0, pow_zero] at hA; omega
      · exact h0
    have hBk : 10 ^ (natClog10 ((b + a - 1) / a) - 1) < (b + a - 1) / a := by
      rcases hB with h0 | h0
      · omega
      · exact h0
    -- b ≤ a * 10 ^ k
    have step1 : b ≤ ((b + a - 1) / a) * a := by
      have h1 : (b + a - 1) / a < (b + a - 1) / a + 1 := Nat.lt_succ_self _
      have h2 : b + a - 1 < ((b + a - 1) / a + 1) * a := (Nat.div_lt_iff_lt_mul (by omega)).mp h1
      have h3 : ((b + a - 1) / a + 1) * a = ((b + a - 1) / a) * a + a := by ring
      omega
    have stepL : b ≤ a * 10 ^ natClog10 ((b + a - 1) / a) := by
      calc b ≤ ((b + a - 1) / a) * a := step1
        _ ≤ 10 ^ natClog10 ((b + a - 1) / a) * a := Nat.mul_le_mul_right a hA
        _ = a * 10 ^ natClog10 ((b + a - 1) / a) := Nat.mul_comm _ _
    -- a * 10 ^ (k - 1) < b
    have stepR : a * 10 ^ (natClog10 ((b + a - 1) / a) - 1) < b := by
      have h1 : 10 ^ (natClog10 ((b + a - 1) / a) - 1) + 1 ≤ (b + a - 1) / a := hBk
      have h2 : (10 ^ (natClog10 ((b + a - 1) / a) - 1) + 1) * a ≤ b + a - 1 :=
        (Nat.le_div_iff_mul_le (by omega)).mp h1
      have h3 : (10 ^ (natClog10 ((b + a - 1) / a) - 1) + 1) * a =
          a * 10 ^ (natClog10 ((b + a - 1) / a) - 1) + a := by ring
      omega
    rw [pairFloorLog10, if_neg (by omega)]
    constructor
    · rw [zpow_neg, zpow_natCast]
      rw [inv_mul_eq_div, div_le_iff₀ (by positivity)]
      exact_mod_cast stepL
    · rw [show (-(natClog10 ((b + a - 1) / a) : ℤ) + 1) =
        -(((natClog10 ((b + a - 1) / a) - 1 : ℕ)) : ℤ) by omega]
      rw [zpow_neg, zpow_natCast, inv_mul_eq_div, lt_div_iff₀ (by positivity)]
      exact_mod_cast stepR

theorem qFloorLog10_spec (q : ℚ) (hq : 0 < q) :
    (10:ℚ) ^ qFloorLog10 q ≤ q ∧ q < 10 ^ (qFloorLog10 q + 1) := by
  have hnum : 0 < q.num := Rat.num_pos.mpr hq
  have hnum1 : 1 ≤ q.num.toNat := by omega
  have hden : 1 ≤ q.den := q.den_pos
  obtain ⟨hL, hR⟩ := pairFloorLog10_spec q.num.toNat q.den hnum1 hden
  have hcast : ((q.num.toNat : ℚ)) = ((q.num : ℚ)) := by
    have : ((q.num.toNat : ℤ)) = q.num := Int.toNat_of_nonneg (by omega)
    exact_mod_cast this
  rw [hcast] at hL hR
  unfold qFloorLog10
  constructor
  · have h := (le_div_iff₀ (show (0:ℚ) < q.den by exact_mod_cast hden)).mpr hL
    rwa [Rat.num_div_den q] at h
  · have h := (div_lt_iff₀ (show (0:ℚ) < q.den by exact_mod_cast hden)).mpr hR
    rwa [Rat.num_div_den q] at h

theorem roundScaledLog10_spec (s : ℕ) (q : ℚ) (hq : 0 < q) :
    (10:ℚ) ^ (2 * roundScaledLog10 s q - 1) ≤ q ^ (2 * s) ∧
      q ^ (2 * s) < 10 ^ (2 * roundScaledLog10 s q + 1) := by
  have hnum : 0 < q.num := Rat.num_pos.mpr hq
  have hA : 1 ≤ q.num.toNat ^ (2 * s) := Nat.one_le_pow _ _ (by omega)
  have hB : 1 ≤ q.den ^ (2 * s) := Nat.one_le_pow _ _ q.den_pos
  obtain ⟨hL, hR⟩ := pairFloorLog10_spec _ _ hA hB
  have hpow : q ^ (2 * s) = ((q.num.toNat ^ (2 * s) : ℕ) : ℚ) / ((q.den ^ (2 * s) : ℕ) : ℚ) := by
    have hcast : ((q.num.toNat : ℚ)) = ((q.num : ℚ)) := by
      have : ((q.num.toNat : ℤ)) = q.num := Int.toNat_of_nonneg (by omega)
      exact_mod_cast this
    conv_lhs => rw [show q = (q.num : ℚ) / (q.den : ℚ) from (Rat.num_div_den q).symm]
    rw [div_pow]
    push_cast
    rw [hcast]
  have hL' : (10:ℚ) ^ pairFloorLog10 (q.num.toNat ^ (2 * s)) (q.den ^ (2 * s)) ≤ q ^ (2 * s) := by
    rw [hpow, le_div_iff₀ (by exact_mod_cast hB)]
    exact hL
  have hR' : q ^ (2 * s) < (10:ℚ) ^ (pairFloorLog10 (q.num.toNat ^ (2 * s)) (q.den ^ (2 * s)) + 1) := by
    rw [hpow, div_lt_iff₀ (by exact_mod_cast hB)]
    exact hR
  have hunf : roundScaledLog10 s q =
      (if pairFloorLog10 (q.num.toNat ^ (2 * s)) (q.den ^ (2 * s)) % 2 = 0 then
        pairFloorLog10 (q.num.toNat ^ (2 * s)) (q.den ^ (2 * s))
      else pairFloorLog10 (q.num.toNat ^ (2 * s)) (q.den ^ (2 * s)) + 1) / 2 := rfl
  constructor
  · refine le_trans (zpow_le_zpow_right₀ (by norm_num) ?_) hL'
    rw [hunf]
    omega
  · refine lt_of_lt_of_le hR' (zpow_le_zpow_right₀ (by norm_num) ?_)
    rw [hunf]
    omega

theorem roundScaledLog10_eval (s : ℕ) (q : ℚ) (hq : 0 < q) (R : ℤ)
    (h1 : (10:ℚ) ^ (2 * R - 1) ≤ q ^ (2 * s)) (h2 : q ^ (2 * s) < 10 ^ (2 * R + 1)) :
    roundScaledLog10 s q = R := by
  obtain ⟨hL, hR⟩ := roundScaledLog10_spec s q hq
  have c1 : (10:ℚ) ^ (2 * R - 1) < 10 ^ (2 * roundScaledLog10 s q + 1) := lt_of_le_of_lt h1 hR
  have c2 : (10:ℚ) ^ (2 * roundScaledLog10 s q - 1) < 10 ^ (2 * R + 1) := lt_of_le_of_lt hL h2
  have d1 : 2 * R - 1 < 2 * roundScaledLog10 s q + 1 :=
    (zpow_lt_zpow_iff_right₀ (by norm_num)).mp c1
  have d2 : 2 * roundScaledLog10 s q - 1 < 2 * R + 1 :=
    (zpow_lt_zpow_iff_right₀ (by norm_num)).mp c2
  omega

theorem qFloorLog10_eval (q : ℚ) (hq : 0 < q) (m : ℤ)
    (h1 : (10:ℚ) ^ m ≤ q) (h2 : q < 10 ^ (m + 1)) : qFloorLog10 q = m := by
  obtain ⟨hL, hR⟩ := qFloorLog10_spec q hq
  have c1 : (10:ℚ) ^ m < 10 ^ (qFloorLog10 q + 1) := lt_of_le_of_lt h1 hR
  have c2 : (10:ℚ) ^ qFloorLog10 q < 10 ^ (m + 1) := lt_of_le_of_lt hL h2
  have d1 : m < qFloorLog10 q + 1 := (zpow_lt_zpow_iff_right₀ (by norm_num)).mp c1
  have d2 : qFloorLog10 q < m + 1 := (zpow_lt_zpow_iff_right₀ (by norm_num)).mp c2
  omega

/-! ## Concrete evaluations of the colour helpers -/

theorem round100log10_pow9 : round100log10 (1000000000 : ℚ) = 900 := by
  apply roundScaledLog10_eval 100 _ (by norm_num) 900
  · rw [show ((2 * (900:ℤ) - 1)) = ((1799:ℕ) : ℤ) by norm_num, zpow_natCast]
    norm_num
  · rw [show ((2 * (900:ℤ) + 1)) = ((1801:ℕ) : ℤ) by norm_num, zpow_natCast]
    norm_num

theorem round100log10_eps : round100log10 ((1:ℚ) / 5000) = -370 := by
  apply roundScaledLog10_eval 100 _ (by norm_num) (-370)
  · rw [show ((2 * (-370:ℤ) - 1)) = -((741:ℕ) : ℤ) by norm_num, zpow_neg, zpow_natCast,
      div_pow, one_pow]
    rw [one_div, inv_le_inv₀ (by positivity) (by positivity)]
    norm_num
  · rw [show ((2 * (-370:ℤ) + 1)) = -((739:ℕ) : ℤ) by norm_num, zpow_neg, zpow_natCast,
      div_pow, one_pow]
    rw [one_div, inv_lt_inv₀ (by positivity) (by positivity)]
    norm_num

theorem roundLog10_eps : roundLog10 ((1:ℚ) / 5000) = -4 := by
  apply roundScaledLog10_eval 1 _ (by norm_num) (-4)
  · rw [show ((2 * (-4:ℤ) - 1)) = -((9:ℕ) : ℤ) by norm_num, zpow_neg, zpow_natCast,
      div_pow, one_pow]
    rw [one_div, inv_le_inv₀ (by positivity) (by positivity)]
    norm_num
  · rw [show ((2 * (-4:ℤ) + 1)) = -((7:ℕ) : ℤ) by norm_num, zpow_neg, zpow_natCast,
      div_pow, one_pow]
    rw [one_div, inv_lt_inv₀ (by positivity) (by positivity)]
    norm_num

theorem qFloorLog10_pow9 : qFloorLog10 (1000000000 : ℚ) = 9 := by
  apply qFloorLog10_eval _ (by norm_num) 9
  · rw [show ((9:ℤ)) = ((9:ℕ) : ℤ) by norm_num, zpow_natCast]
    norm_num
  · rw [show ((9:ℤ) + 1) = ((10:ℕ) : ℤ) by norm_num, zpow_natCast]
    norm_num

theorem pyIndex_sunset8_nine : pyIndex sunset8 (max 0 ((900:ℤ).tdiv 100)) = none := by decide

theorem pyIndex_sunset8_negSmall : pyIndex sunset8 (max 0 ((-370:ℤ).tdiv 100)) = some 0 := by
  decide

theorem pyIndex_sunset8_negFour : pyIndex sunset8 (max 0 (-4:ℤ)) = some 0 := by decide

/-! ## The city column of the aggregated frame is determined by the source -/

theorem make_df0_city_map (src : List SourceRow) (year : ℤ) (fl : ℚ) :
    (make_df0 src year fl).map WRow.city = src.map SourceRow.city := by
  unfold make_df0
  rw [List.map_map, List.map_map]
  apply List.map_congr_left
  intro r _
  show WRow.city (maskRow fl (project year r)) = r.city
  unfold maskRow project
  rcases r.mc year with _ | v
  · rfl
  · dsimp only
    split <;> rfl

theorem create_df_main_city_map (src : List SourceRow) (year : ℤ) (fl : ℚ) :
    (create_df_main src year fl).map ARow.city = sortDedupCities (src.map SourceRow.city) := by
  unfold create_df_main
  rw [List.map_map, make_df0_city_map]
  have h : ∀ l : List String,
      l.map (ARow.city ∘ fun c =>
        aggRow c ((make_df0 src year fl).filter (fun r => r.city = c))) = l.map id :=
    fun l => List.map_congr_left (fun c _ => rfl)
  rw [h, List.map_id]

/-! ## Bounds on the colour index -/

theorem max_tdiv100_nonneg (R : ℤ) : 0 ≤ max 0 (R.tdiv 100) := le_max_left 0 _

theorem max_tdiv100_le_seven (R : ℤ) (h : R ≤ 700) : max 0 (R.tdiv 100) ≤ 7 := by
  rcases le_or_lt 0 R with h0 | h0
  · rw [Int.tdiv_eq_ediv h0 (by norm_num)]
    omega
  · have h1 : R = -(-R) := by ring
    have h2 : 0 ≤ (-R).tdiv 100 := Int.tdiv_nonneg (by omega) (by norm_num)
    have h3 : R.tdiv 100 ≤ 0 := by rw [h1, Int.neg_tdiv]; omega
    omega

theorem pyIndex_sunset8_inRange (i : ℤ) (h0 : 0 ≤ i) (h8 : i < 8) :
    pyIndex sunset8 i = some i.toNat := by
  unfold pyIndex sunset8
  rw [if_pos h0]
  interval_cases i <;> rfl

/-- The colour computation of one aggregated row, when the epsilon-shifted
sum is positive and at most `10 ^ 7`: the palette access succeeds and returns
the entry at `max 0 (int(round(log10(sum + eps), 2)))`. -/
theorem aggRow_c_col (c : String) (g : List WRow)
    (hpos : 0 < (aggRow c g).mc + 1 / 5000) (hle : (aggRow c g).mc + 1 / 5000 ≤ 10 ^ 7) :
    (aggRow c g).c_col =
      some ((max 0 ((round100log10 ((aggRow c g).mc + 1 / 5000)).tdiv 100)).toNat) := by
  have hR : round100log10 ((aggRow c g).mc + 1 / 5000) ≤ 700 := by
    obtain ⟨hL, _⟩ := roundScaledLog10_spec 100 ((aggRow c g).mc + 1 / 5000) hpos
    have hq200 : ((aggRow c g).mc + 1 / 5000) ^ (2 * 100) ≤ (10:ℚ) ^ (1400:ℕ) := by
      calc ((aggRow c g).mc + 1 / 5000) ^ (2 * 100) ≤ ((10:ℚ) ^ 7) ^ (2 * 100) :=
            pow_le_pow_left₀ (le_of_lt hpos) hle _
        _ = (10:ℚ) ^ (1400:ℕ) := by rw [← pow_mul]
    have hchain : (10:ℚ) ^ (2 * round100log10 ((aggRow c g).mc + 1 / 5000) - 1) ≤
        (10:ℚ) ^ (((1400:ℕ)):ℤ) := by
      calc (10:ℚ) ^ (2 * round100log10 ((aggRow c g).mc + 1 / 5000) - 1) ≤
            ((aggRow c g).mc + 1 / 5000) ^ (2 * 100) := hL
        _ ≤ (10:ℚ) ^ (1400:ℕ) := hq200
        _ = (10:ℚ) ^ (((1400:ℕ)):ℤ) := (zpow_natCast 10 1400).symm
    have := (zpow_le_zpow_iff_right₀ (show (1:ℚ) < 10 by norm_num)).mp hchain
    omega
  have hidx : max 0 ((round100log10 ((aggRow c g).mc + 1 / 5000)).tdiv 100) < 8 := by
    have := max_tdiv100_le_seven _ hR
    omega
  exact pyIndex_sunset8_inRange _ (max_tdiv100_nonneg _) hidx

/-! ## Masking helpers -/

theorem make_df0_all_masked (src : List SourceRow) (year : ℤ) (fl : ℚ)
    (hall : ∀ r ∈ src, ∃ v, r.mc year = some v ∧ v < fl) :
    ∀ w ∈ make_df0 src year fl, w.symbol = none ∧ w.mc = none ∧ w.emp = none := by
  intro w hw
  unfold make_df0 at hw
  rw [List.map_map, List.mem_map] at hw
  obtain ⟨r, hr, rfl⟩ := hw
  obtain ⟨v, hv, hlt⟩ := hall r hr
  show (maskRow fl (project year r)).symbol = none ∧ (maskRow fl (project year r)).mc = none ∧
    (maskRow fl (project year r)).emp = none
  unfold maskRow project
  dsimp only
  rw [hv]
  dsimp only
  rw [if_pos hlt]
  exact ⟨rfl, rfl, rfl⟩

theorem masked_sum_zero (g : List WRow)
    (hg : ∀ w ∈ g, w.symbol = none ∧ w.mc = none ∧ w.emp = none) :
    (g.map (fun r => r.mc.getD 0)).sum = 0 ∧ (g.map (fun r => r.emp.getD 0)).sum = 0 ∧
      (g.filter (fun r => r.symbol.isSome)).length = 0 := by
  refine ⟨List.sum_eq_zero ?_, List.sum_eq_zero ?_, ?_⟩
  · intro x hx
    rw [List.mem_map] at hx
    obtain ⟨w, hw, rfl⟩ := hx
    rw [(hg w hw).2.1]
    rfl
  · intro x hx
    rw [List.mem_map] at hx
    obtain ⟨w, hw, rfl⟩ := hx
    rw [(hg w hw).2.2]
    rfl
  · rw [List.length_eq_zero, List.filter_eq_nil_iff]
    intro w hw
    rw [(hg w hw).1]
    simp

/-! ## Year-advance iteration -/

theorem update_year_iterate_from_max : ∀ k : ℕ, 1 ≤ k →
    update_year_year^[k] 2022 = 2019 + (((k:ℤ) - 1) % 4) := by
  intro k hk
  induction k with
  | zero => omega
  | succ k ih =>
    rcases Nat.eq_zero_or_pos k with h0 | h0
    · subst h0
      rw [Function.iterate_one]
      norm_num [update_year_year]
    · have ihk := ih h0
      rw [Function.iterate_succ_apply', ihk]
      unfold update_year_year
      split <;> rename_i hcond <;> omega

theorem update_year_iterate_to_max : ∀ y : ℤ, 2019 ≤ y → y ≤ 2022 →
    update_year_year^[(2022 - y).toNat] y = 2022 := by
  intro y h1 h2
  interval_cases y <;> rfl

/-! ## Claim C1 -/

/-- C1 (counterexample): the claim that the colour bucket index saturates at 7
is false on the code.  For a location whose summed metric-A is
`10^9 - 0.0002` (epsilon-shifted sum exactly `10^9`), the spec's bucket
`min 7 (max 0 (floor(log10(sum + eps))))` is 7, but the script computes the
index `max(0, int(round(log10(sum+eps), 2))) = 9` and `Sunset[8][9]` raises
`IndexError` — the palette access yields no entry (`none`), an out-of-range
access, not bucket 7. -/
theorem C1_cex_no_saturation :
    (create_df_main srcBig 2022 0).map ARow.c_col = [none] ∧
    specColorBucket (1000000000 - 1 / 5000) = 7 := by
  constructor
  · norm_num +decide [create_df_main, make_df0, srcBig, project, maskRow, constCol,
      sortDedupCities, insertD, aggRow, List.filter, round100log10_pow9, pyIndex_sunset8_nine]
  · have h : (1000000000 : ℚ) - 1 / 5000 + 1 / 5000 = 1000000000 := by norm_num
    unfold specColorBucket
    rw [h, qFloorLog10_pow9]
    norm_num

/-- C1 (amended): in the aggregated frame the colour value is the palette
entry at `max 0 (int(round(log10(sum + eps), 2)))` — truncation of the
two-decimal rounding of `log10`, clamped below at 0, with NO saturation at
7.  Whenever every location's epsilon-shifted metric-A sum is positive and
at most `10^7`, that index is at most 7 and the palette access succeeds. -/
theorem C1_color_bucket_amended (src : List SourceRow) (year : ℤ) (fl : ℚ)
    (h : ∀ a ∈ create_df_main src year fl, 0 < a.mc + 1 / 5000 ∧ a.mc + 1 / 5000 ≤ 10 ^ 7) :
    ∀ a ∈ create_df_main src year fl,
      a.c_col = some ((max 0 ((round100log10 (a.mc + 1 / 5000)).tdiv 100)).toNat) := by
  intro a ha
  obtain ⟨hpos, hle⟩ := h a ha
  unfold create_df_main at ha h
  rw [List.mem_map] at ha
  obtain ⟨c, _, rfl⟩ := ha
  exact aggRow_c_col c _ hpos hle

/-- Witness for C1 (amended) at the concrete two-city table. -/
theorem C1_color_bucket_amended_witness :
    (∀ a ∈ create_df_main src7 2020 0, 0 < a.mc + 1 / 5000 ∧ a.mc + 1 / 5000 ≤ 10 ^ 7) ∧
    (∀ a ∈ create_df_main src7 2020 0,
      a.c_col = some ((max 0 ((round100log10 (a.mc + 1 / 5000)).tdiv 100)).toNat)) := by
  have hmc : (create_df_main src7 2020 0).map ARow.mc = [40, 5] := by
    norm_num +decide [create_df_main, make_df0, src7, project, maskRow, constCol,
      sortDedupCities, insertD, aggRow, List.filter]
  have h : ∀ a ∈ create_df_main src7 2020 0, 0 < a.mc + 1 / 5000 ∧ a.mc + 1 / 5000 ≤ 10 ^ 7 := by
    intro a ha
    have hmem : a.mc ∈ (create_df_main src7 2020 0).map ARow.mc := List.mem_map_of_mem _ ha
    rw [hmc] at hmem
    simp only [List.mem_cons, List.not_mem_nil, or_false] at hmem
    rcases hmem with h1 | h1 <;> rw [h1] <;> norm_num
  exact ⟨h, C1_color_bucket_amended src7 2020 0 h⟩

/-! ## Claim C2 -/

/-- C2: starting from any valid year `y ∈ [2019, 2022]`, advancing the year
step until it has passed `Y_max = 2022` by `k ≥ 1` applications lands on
`2019 + ((k - 1) mod 4)`; in particular one advance from 2022 wraps to 2019
(a wrap-around, not a clamp), and the animation tick (`update_year`) assigns
exactly this wrapped year. -/
theorem C2_year_wraparound :
    (∀ y : ℤ, 2019 ≤ y → y ≤ 2022 → ∀ k : ℕ, 1 ≤ k →
      update_year_year^[(2022 - y).toNat + k] y = 2019 + (((k:ℤ) - 1) % 4)) ∧
    update_year_year 2022 = 2019 ∧
    (∀ s : AppState, (update_year s).year = update_year_year s.year) := by
  refine ⟨?_, by norm_num [update_year_year], fun s => rfl⟩
  intro y h1 h2 k hk
  rw [Nat.add_comm, Function.iterate_add_apply, update_year_iterate_to_max y h1 h2]
  exact update_year_iterate_from_max k hk

/-- Witness for C2: from year 2020, six advances past the maximum land on
`2019 + ((6 - 1) mod 4) = 2020`. -/
theorem C2_year_wraparound_witness :
    (2019:ℤ) ≤ 2020 ∧ (2020:ℤ) ≤ 2022 ∧ (1:ℕ) ≤ 6 ∧
    update_year_year^[((2022:ℤ) - 2020).toNat + 6] 2020 = 2019 + ((((6:ℕ):ℤ) - 1) % 4) :=
  ⟨by norm_num, by norm_num, by norm_num,
    C2_year_wraparound.1 2020 (by norm_num) (by norm_num) 6 (by norm_num)⟩

/-! ## Claim C3 -/

/-- C3: the two pushed tables always match the current view parameters —
the invariant `TablesInv` holds in the initial state and is preserved by
every single controller operation (tap, slider, tick, button), so no
completed operation leaves one panel on old parameters and the other on new
ones. -/
theorem C3_tables_consistent :
    (∀ src : List SourceRow, TablesInv (initState src)) ∧
    (∀ (s : AppState) (op : Op), TablesInv s → TablesInv (applyOp s op)) := by
  constructor
  · intro src
    exact ⟨rfl, rfl⟩
  · intro s op h
    cases op with
    | tap new =>
      cases new with
      | nil => exact h
      | cons i rest =>
        simp only [applyOp, tap_update]
        cases hrow : s.main_df_global[i]? with
        | none => exact h
        | some row => exact ⟨h.1, rfl⟩
    | slider v => exact ⟨rfl, rfl⟩
    | tick => exact ⟨rfl, rfl⟩
    | button =>
      simp only [applyOp, play]
      split
      · exact h
      · exact h

/-- Witness for C3: the invariant holds initially on the concrete table and
is preserved by a concrete slider move. -/
theorem C3_tables_consistent_witness :
    TablesInv (initState src7) ∧ TablesInv (applyOp (initState src7) (Op.slider 20)) :=
  ⟨C3_tables_consistent.1 src7,
    C3_tables_consistent.2 (initState src7) (Op.slider 20) (C3_tables_consistent.1 src7)⟩

/-! ## Claim C4 -/

/-- C4 (counterexample): the claim that an empty selection empties the
Detail Table is false on the code.  In the state where `CityB` (one
qualifying row) is selected, delivering an empty selection list leaves the
state — including the one-row subplot frame — completely unchanged
(`tap_update` begins with `if new:`), so the Detail Table does not become
empty: it still has 1 row, not 0. -/
theorem C4_cex_empty_selection :
    tap_update stateB [] = stateB ∧ stateB.subData.length = 1 := by
  constructor
  · rfl
  · show (create_df_sub src7 2020 "CityB" 0).length = 1
    norm_num +decide [create_df_sub, make_df0, src7, project, maskRow, constCol, List.filter]

/-- C4 (amended): delivering an empty selection (the "no selection" event)
is a no-op: `tap_update` returns the state unchanged — in particular no
error is raised and the Detail Table keeps its previous rows. -/
theorem C4_empty_selection_noop (s : AppState) : tap_update s [] = s := rfl

/-! ## Claim C5 -/

/-- C5 (counterexample): the claim that a tick firing after the animation
has been stopped is a no-op is false on the code.  Starting the animation
and stopping it again leaves a STOPPED state (no callback, year 2022); a
tick that fires in that state still advances the year to 2019 —
`update_year` contains no animation-flag check. -/
theorem C5_cex_tick_not_noop :
    (applyOps (initState src7) [Op.button, Op.button]).callback = none ∧
    (applyOps (initState src7) [Op.button, Op.button]).year = 2022 ∧
    (applyOp (applyOps (initState src7) [Op.button, Op.button]) Op.tick).year = 2019 := by
  refine ⟨rfl, rfl, rfl⟩

/-- C5 (amended): a tick fired while the controller is STOPPED (no callback
handle) applies its full effect — it advances and wraps the year and
recomputes the tables — but it does not touch the animation state: the
callback handle stays absent and the button label is unchanged.  Stopping
therefore relies entirely on the runtime removing the periodic callback,
not on any flag check inside `update_year`. -/
theorem C5_tick_when_stopped (s : AppState) (h : s.callback = none) :
    (update_year s).callback = none ∧
    (update_year s).btnLabel = s.btnLabel ∧
    (update_year s).year = update_year_year s.year ∧
    (update_year s).mainData = create_df_main s.src (update_year_year s.year) s.market_cap_lower := by
  exact ⟨h, rfl, rfl, rfl⟩

/-- Witness for C5 (amended) at the initial state of the concrete table. -/
theorem C5_tick_when_stopped_witness :
    (initState src7).callback = none ∧
    ((update_year (initState src7)).callback = none ∧
     (update_year (initState src7)).btnLabel = (initState src7).btnLabel ∧
     (update_year (initState src7)).year = update_year_year (initState src7).year ∧
     (update_year (initState src7)).mainData =
       create_df_main (initState src7).src (update_year_year (initState src7).year)
         (initState src7).market_cap_lower) :=
  ⟨rfl, C5_tick_when_stopped (initState src7) rfl⟩

/-! ## Claim C6 -/

/-- C6 (counterexample): the claim quantifies over all floors greater than
OR EQUAL to the maximum metric-A value, but the masking condition is the
strict `Market Cap < market_cap_lower`, so at a floor exactly equal to the
maximum (5, for the one-row table whose only metric-A value is 5) the row
is NOT masked: the aggregated frame still shows sum 5 and count 1 (not 0),
and the Detail Table still has 1 row (also contradicting "zero rows" — the
masking step nulls values but never removes rows). -/
theorem C6_cex_floor_equal_max :
    (create_df_main src6 2020 5).map (fun a => (a.city, a.mc, a.count)) = [("CityB", 5, 1)] ∧
    (create_df_sub src6 2020 "CityB" 5).length = 1 := by
  constructor
  · norm_num +decide [create_df_main, make_df0, src6, project, maskRow, constCol,
      sortDedupCities, insertD, aggRow, List.filter]
  · norm_num +decide [create_df_sub, make_df0, src6, project, maskRow, constCol, List.filter]

/-- C6 (amended): for every floor STRICTLY greater than every metric-A
value present in the chosen year (in a table where every row has a present
metric-A value), every aggregated row has metric-A sum 0, metric-B sum 0
and entity count 0, and its colour access succeeds (entry 0); and for every
selected location each detail row is fully masked — entity key, metric-A
and metric-B are all null and the colour access succeeds — though the rows
themselves remain (masking is not deletion).  No palette access fails, so
no exception is raised. -/
theorem C6_floor_above_max (src : List SourceRow) (year : ℤ) (fl : ℚ) (city : String)
    (hall : ∀ r ∈ src, ∃ v, r.mc year = some v ∧ v < fl) :
    (∀ a ∈ create_df_main src year fl, a.mc = 0 ∧ a.emp = 0 ∧ a.count = 0 ∧ a.c_col = some 0) ∧
    (∀ w ∈ create_df_sub src year city fl,
      w.symbol = none ∧ w.mc = none ∧ w.emp = none ∧ w.c_col = some 0) := by
  have hmask := make_df0_all_masked src year fl hall
  constructor
  · intro a ha
    unfold create_df_main at ha
    rw [List.mem_map] at ha
    obtain ⟨c, _, rfl⟩ := ha
    have hgm : ∀ w ∈ (make_df0 src year fl).filter (fun r => r.city = c),
        w.symbol = none ∧ w.mc = none ∧ w.emp = none := by
      intro w hw
      exact hmask w (List.mem_of_mem_filter hw)
    obtain ⟨hmc, hemp, hcnt⟩ := masked_sum_zero _ hgm
    refine ⟨hmc, hemp, hcnt, ?_⟩
    show pyIndex sunset8
      (max 0 ((round100log10
        ((((make_df0 src year fl).filter (fun r => r.city = c)).map
          (fun r => r.mc.getD 0)).sum + 1 / 5000)).tdiv 100)) = some 0
    rw [hmc, show (0:ℚ) + 1 / 5000 = 1 / 5000 by norm_num, round100log10_eps]
    exact pyIndex_sunset8_negSmall
  · intro w hw
    simp only [create_df_sub] at hw
    rw [List.mem_map] at hw
    obtain ⟨w0, hw0, rfl⟩ := hw
    have hgm : ∀ u ∈ (make_df0 src year fl).filter (fun r => r.city = city),
        u.symbol = none ∧ u.mc = none ∧ u.emp = none := by
      intro u hu
      exact hmask u (List.mem_of_mem_filter hu)
    obtain ⟨hmc, _, _⟩ := masked_sum_zero _ hgm
    obtain ⟨hs0, hm0, he0⟩ := hgm w0 hw0
    refine ⟨hs0, hm0, he0, ?_⟩
    show pyIndex sunset8
      (max 0 (roundLog10
        ((((make_df0 src year fl).filter (fun r => r.city = city)).map
          (fun r => r.mc.getD 0)).sum + 1 / 5000))) = some 0
    rw [hmc, show (0:ℚ) + 1 / 5000 = 1 / 5000 by norm_num, roundLog10_eps]
    exact pyIndex_sunset8_negFour

/-- Witness for C6 (amended): the one-row `CityB` table with floor 6. -/
theorem C6_floor_above_max_witness :
    (∀ r ∈ src6, ∃ v, r.mc 2020 = some v ∧ v < 6) ∧
    (∀ a ∈ create_df_main src6 2020 6, a.mc = 0 ∧ a.emp = 0 ∧ a.count = 0 ∧ a.c_col = some 0) ∧
    (∀ w ∈ create_df_sub src6 2020 "CityB" 6,
      w.symbol = none ∧ w.mc = none ∧ w.emp = none ∧ w.c_col = some 0) := by
  have h : ∀ r ∈ src6, ∃ v, r.mc 2020 = some v ∧ v < 6 := by
    intro r hr
    rw [src6, List.mem_singleton] at hr
    subst hr
    exact ⟨5, rfl, by norm_num⟩
  exact ⟨h, (C6_floor_above_max src6 2020 6 "CityB" h).1,
    (C6_floor_above_max src6 2020 6 "CityB" h).2⟩

/-! ## Claim C7 -/

/-- C7: the masking step nulls entity key, metric-A and metric-B for
exactly the rows below the floor without deleting any row (the working
frame always has as many rows as the source), and the aggregation treats
nulled cells as 0 in sums and as absent in counts.  Concretely, for the
spec's table (CityA metric-A `[10, 30]`, CityB `[5]`, year 2020): with
floor 20 the middle row keeps `(A2, 30, 200)` while the other two become
all-null; with floor 0 the aggregate is CityA sum 40 count 2, CityB sum 5
count 1; with floor 20 it is CityA sum 30 count 1, CityB sum 0 count 0. -/
theorem C7_masking_semantics :
    (∀ (src : List SourceRow) (year : ℤ) (fl : ℚ), (make_df0 src year fl).length = src.length) ∧
    (make_df0 src7 2020 20).map (fun r => (r.symbol, r.mc, r.emp)) =
      [(none, none, none), (some "A2", some 30, some 200), (none, none, none)] ∧
    (create_df_main src7 2020 0).map (fun a => (a.city, a.mc, a.count)) =
      [("CityA", 40, 2), ("CityB", 5, 1)] ∧
    (create_df_main src7 2020 20).map (fun a => (a.city, a.mc, a.count)) =
      [("CityA", 30, 1), ("CityB", 0, 0)] := by
  refine ⟨?_, ?_, ?_, ?_⟩
  · intro src year fl
    unfold make_df0
    rw [List.length_map, List.length_map]
  · norm_num [make_df0, src7, project, maskRow, constCol]
  · norm_num +decide [create_df_main, make_df0, src7, project, maskRow, constCol,
      sortDedupCities, insertD, aggRow, List.filter]
  · norm_num +decide [create_df_main, make_df0, src7, project, maskRow, constCol,
      sortDedupCities, insertD, aggRow, List.filter]

/-! ## Claim C8 -/

/-- C8: when a tap delivers index list `i :: rest`, the new selection is the
city of row `i` of the Aggregated Table under the CURRENT parameters.  The
script actually resolves the index against the module-level `main_df` built
at load time, but the city column of the aggregated frame is the sorted
list of distinct source cities, independent of year and floor (masking
nulls metrics but never the city key, and grouping keeps every city), so
the two row orders coincide and the claim holds after any sequence of year
and floor changes. -/
theorem C8_tap_resolves_current_order (s : AppState) (i : ℕ) (rest : List ℕ) (r : ARow)
    (hmain : s.mainData = create_df_main s.src s.year s.market_cap_lower)
    (hglob : s.main_df_global = create_df_main s.src 2022 0)
    (hi : s.mainData[i]? = some r) :
    (tap_update s (i :: rest)).city = r.city := by
  have hcity : (s.main_df_global.map ARow.city)[i]? = some r.city := by
    rw [hglob, create_df_main_city_map,
      ← create_df_main_city_map s.src s.year s.market_cap_lower, ← hmain,
      List.getElem?_map, hi]
    rfl
  rw [List.getElem?_map] at hcity
  cases hrow : s.main_df_global[i]? with
  | none =>
    rw [hrow] at hcity
    simp at hcity
  | some row =>
    rw [hrow] at hcity
    simp only [Option.map_some', Option.some.injEq] at hcity
    simp only [tap_update]
    rw [hrow]
    exact hcity

/-- Witness for C8: tapping row 1 of the initial frame of the concrete
table selects `CityB`, the city at index 1 of the current aggregated
frame. -/
theorem C8_tap_resolves_current_order_witness :
    (tap_update (initState src7) [1]).city = "CityB" ∧
    (initState src7).mainData[1]?.map ARow.city = some "CityB" := by
  have hmap : ((initState src7).mainData.map ARow.city)[1]? = some "CityB" := by
    show ((create_df_main src7 2022 0).map ARow.city)[1]? = some "CityB"
    rw [create_df_main_city_map]
    decide
  rw [List.getElem?_map] at hmap
  obtain ⟨r, hr, hrc⟩ := Option.map_eq_some'.mp hmap
  constructor
  · rw [← hrc]
    exact C8_tap_resolves_current_order (initState src7) 1 [] r rfl rfl hr
  · rw [hr, Option.map_some', hrc]

/-! ## Claim C9 -/

/-- C9: no controller operation (and no recomputation they trigger) ever
modifies the source table: `create_df` works on a projected copy and the
masking mutates only that copy, so the `src` component of the state is
unchanged by every single operation and by every serialized sequence of
operations. -/
theorem C9_source_immutable :
    (∀ (s : AppState) (op : Op), (applyOp s op).src = s.src) ∧
    (∀ (s : AppState) (ops : List Op), (applyOps s ops).src = s.src) := by
  have h1 : ∀ (s : AppState) (op : Op), (applyOp s op).src = s.src := by
    intro s op
    cases op with
    | tap new =>
      cases new with
      | nil => rfl
      | cons i rest =>
        simp only [applyOp, tap_update]
        cases hrow : s.main_df_global[i]? with
        | none => rfl
        | some row => rfl
    | slider v => rfl
    | tick => rfl
    | button =>
      simp only [applyOp, play]
      split
      · rfl
      · rfl
  refine ⟨h1, ?_⟩
  intro s ops
  induction ops generalizing s with
  | nil => rfl
  | cons op ops ih => exact (ih (applyOp s op)).trans (h1 s op)

/-! ## Claim C10 -/

theorem btnTimerInv_step (s : AppState) (op : Op) (h : BtnTimerInv s) :
    BtnTimerInv (applyOp s op) := by
  cases op with
  | tap new =>
    cases new with
    | nil => exact h
    | cons i rest =>
      simp only [applyOp, tap_update]
      cases hrow : s.main_df_global[i]? with
      | none => exact h
      | some row => exact h
  | slider v => exact h
  | tick => exact h
  | button =>
    simp only [applyOp, play]
    by_cases hb : s.btnLabel = playLabel
    · rw [if_pos hb]
      right
      exact ⟨rfl, by simp⟩
    · rw [if_neg hb]
      left
      exact ⟨rfl, rfl⟩

/-- C10: from the initial state, after every serialized sequence of events
the periodic-callback handle is present exactly when the button shows the
pause label and absent exactly when it shows the play label: the two
representations of "animation running" (the label string the code branches
on, and handle presence) always agree. -/
theorem C10_button_timer_agree (src : List SourceRow) (ops : List Op) :
    ((applyOps (initState src) ops).callback ≠ none ↔
      (applyOps (initState src) ops).btnLabel = pauseLabel) ∧
    ((applyOps (initState src) ops).callback = none ↔
      (applyOps (initState src) ops).btnLabel = playLabel) := by
  have hlabels : playLabel ≠ pauseLabel := by decide
  have h0 : BtnTimerInv (initState src) := Or.inl ⟨rfl, rfl⟩
  have hstep : ∀ (ops : List Op) (s : AppState), BtnTimerInv s →
      BtnTimerInv (applyOps s ops) := by
    intro ops
    induction ops with
    | nil => intro s hs; exact hs
    | cons op ops ih => intro s hs; exact ih (applyOp s op) (btnTimerInv_step s op hs)
  have hinv := hstep ops (initState src) h0
  rcases hinv with ⟨hl, hc⟩ | ⟨hl, hc⟩
  · rw [hl, hc]
    exact ⟨⟨fun h' => absurd rfl h', fun h' => absurd h' hlabels⟩,
      ⟨fun _ => rfl, fun _ => rfl⟩⟩
  · rw [hl]
    exact ⟨⟨fun _ => rfl, fun _ => hc⟩,
      ⟨fun h' => absurd h' hc, fun h' => absurd h' (Ne.symm hlabels)⟩⟩
